import Mathlib

/-!
Verification development for the graphit ingestion-and-graph-build pipeline
(`app/core/facility_handler.py`).

Modelling conventions:
* Python exceptions are `Except PyError`; an uncaught exception is `.error e`.
* `datetime.strptime(s, "%Y-%m-%d %X")` / `.strftime` are embedded as
  `strptime` / `strftime` over a `DateTime` record of calendar fields;
  Python's datetime comparison is component-lexicographic, embedded via a
  radix key into `Nat`.
* File I/O and pickling are environmental: the parser output is passed as an
  explicit record list, the on-disk artifact as an `Option Facility`, and
  persistence success as a boolean flag of the environment.
-/

/-- A parsed `datetime` value: the calendar fields produced by
`datetime.strptime(s, "%Y-%m-%d %X")`. -/
structure DateTime where
  year : Nat
  month : Nat
  day : Nat
  hour : Nat
  minute : Nat
  second : Nat
deriving DecidableEq, Repr

/-- Radix encoding of a `DateTime` into `Nat`; on field values produced by
`strptime` (month ≤ 12, day ≤ 31, hour ≤ 23, minute, second ≤ 59) comparing
keys is exactly Python's lexicographic `datetime` comparison. -/
def DateTime.key (d : DateTime) : Nat :=
  ((((d.year * 13 + d.month) * 32 + d.day) * 24 + d.hour) * 60 + d.minute) * 60 + d.second

/-- Python `datetime <` (strict). -/
def dtLt (a b : DateTime) : Bool := a.key < b.key

/-- Python `datetime <=`. -/
def dtLe (a b : DateTime) : Bool := a.key ≤ b.key

/-- The running-minimum update of the ingestion loop:
`if cand < acc: acc = cand` (facility_handler.py lines 108-109). -/
def minUpd (acc cand : DateTime) : DateTime := if dtLt cand acc then cand else acc

/-- The running-maximum update of the ingestion loop:
`if cand > acc: acc = cand` (facility_handler.py lines 110-111). -/
def maxUpd (acc cand : DateTime) : DateTime := if dtLt acc cand then cand else acc

/-- Value of a decimal digit character, `none` otherwise. -/
def digitVal (c : Char) : Option Nat :=
  if c.isDigit then some (c.toNat - 48) else none

/-- Read one or two decimal digits greedily (Python `%m`/`%d`/`%H`/`%M`/`%S`
each match one or two digits). -/
def parse2 : List Char → Option (Nat × List Char)
  | [] => none
  | c :: rest =>
    match digitVal c with
    | none => none
    | some v1 =>
      match rest with
      | c2 :: rest2 =>
        match digitVal c2 with
        | some v2 => some (v1 * 10 + v2, rest2)
        | none => some (v1, rest)
      | [] => some (v1, [])

/-- Read exactly four decimal digits (Python `%Y` matches four digits). -/
def parse4 : List Char → Option (Nat × List Char)
  | c1 :: c2 :: c3 :: c4 :: rest => do
    let v1 ← digitVal c1
    let v2 ← digitVal c2
    let v3 ← digitVal c3
    let v4 ← digitVal c4
    some (((v1 * 10 + v2) * 10 + v3) * 10 + v4, rest)
  | _ => none

/-- Consume one expected literal character. -/
def expectChar (c : Char) : List Char → Option (List Char)
  | c2 :: rest => if c2 = c then some rest else none
  | [] => none

/-- Gregorian leap-year rule, as used by Python's `datetime` validation. -/
def isLeap (y : Nat) : Bool := (y % 4 == 0 && y % 100 != 0) || y % 400 == 0

/-- Days in a month, as used by Python's `datetime` validation. -/
def daysInMonth (y m : Nat) : Nat :=
  if m == 2 then (if isLeap y then 29 else 28)
  else if m == 4 || m == 6 || m == 9 || m == 11 then 30
  else 31

/-- `datetime.strptime(s, "%Y-%m-%d %X")`: parse `YYYY-MM-DD HH:MM:SS`
(month/day/hour/minute/second may be one or two digits), validating the
calendar ranges; `none` is Python's `ValueError`. -/
def strptime (s : String) : Option DateTime := do
  let (y, cs) ← parse4 s.toList
  let cs ← expectChar '-' cs
  let (mo, cs) ← parse2 cs
  let cs ← expectChar '-' cs
  let (dy, cs) ← parse2 cs
  let cs ← expectChar ' ' cs
  let (h, cs) ← parse2 cs
  let cs ← expectChar ':' cs
  let (mi, cs) ← parse2 cs
  let cs ← expectChar ':' cs
  let (sec, cs) ← parse2 cs
  if cs.isEmpty && 1 ≤ y && 1 ≤ mo && mo ≤ 12 && 1 ≤ dy && dy ≤ daysInMonth y mo
      && h ≤ 23 && mi ≤ 59 && sec ≤ 59 then
    some ⟨y, mo, dy, h, mi, sec⟩
  else none

/-- Zero-pad to two digits (`%m`, `%d`, `%H`, `%M`, `%S` output). -/
def pad2 (n : Nat) : String := if n < 10 then "0" ++ toString n else toString n

/-- Zero-pad to four digits (`%Y` output; all years occurring in the pipeline
are ≥ 1002, where padded and unpadded output coincide). -/
def pad4 (n : Nat) : String :=
  if n < 10 then "000" ++ toString n
  else if n < 100 then "00" ++ toString n
  else if n < 1000 then "0" ++ toString n
  else toString n

/-- `d.strftime("%Y-%m-%d %X")`. -/
def strftime (d : DateTime) : String :=
  pad4 d.year ++ "-" ++ pad2 d.month ++ "-" ++ pad2 d.day ++ " " ++
    pad2 d.hour ++ ":" ++ pad2 d.minute ++ ":" ++ pad2 d.second

/-- All decimal digits of a non-empty digit string, as a `Nat`. -/
def parseNatDigits (cs : List Char) : Option Nat :=
  if cs.isEmpty then none
  else cs.foldl (fun acc c => do
    let a ← acc
    let v ← digitVal c
    some (a * 10 + v)) (some 0)

/-- Python `int(s)` on the weight strings: optional sign followed by decimal
digits; `none` is Python's `ValueError`. -/
def parseInt (s : String) : Option Int :=
  match s.toList with
  | '-' :: rest => (parseNatDigits rest).map (fun n => -(n : Int))
  | '+' :: rest => (parseNatDigits rest).map (fun n => (n : Int))
  | cs => (parseNatDigits cs).map (fun n => (n : Int))

/-- The Python exceptions observable in the pipeline. -/
inductive PyError where
  | valueError
  | keyError
  | selfEdgesNotSupported
  | unknownLabel
  | duplicateLabels
deriving DecidableEq, Repr

/-- A 2D point (`app/dstruct`); coordinates are embedded as integers, no
claim computes with them. -/
structure Point2D where
  x : Int
  y : Int
deriving DecidableEq, Repr

/-- A named area: label plus boundary points. -/
structure Department where
  label : String
  points : List Point2D
deriving DecidableEq, Repr

/-- Modelled from the spec: the NodeRegistry (`app/dstruct/facility.py`,
not under src/). It holds the canvas extent, the insertion-ordered areas and
the ordered-pair edge-weight map. -/
structure Facility where
  boundaryLow : Point2D
  boundaryHigh : Point2D
  departments : List Department
  edges : List ((String × String) × Int)
deriving DecidableEq, Repr

/-- Modelled from the spec: a label is addressable in the graph when it names
an added area or the `.centroid` sub-node of an added area. -/
def Facility.hasNode (f : Facility) (lbl : String) : Bool :=
  f.departments.any (fun d => lbl == d.label || lbl == d.label ++ ".centroid")

/-- Modelled from the spec: `Facility.add_department` fails with
`DuplicateLabels` if the label exists, otherwise appends the area. -/
def add_department (f : Facility) (dep : Department) : Except PyError Facility :=
  if f.departments.any (fun d => d.label == dep.label) then .error .duplicateLabels
  else .ok { f with departments := f.departments ++ [dep] }

/-- Accumulate `w` into the entry for ordered pair `k`, creating it (at 0,
then accumulating) if absent. -/
def bumpEdge : List ((String × String) × Int) → (String × String) → Int →
    List ((String × String) × Int)
  | [], k, w => [(k, w)]
  | (k0, w0) :: rest, k, w =>
    if k0 == k then (k0, w0 + w) :: rest else (k0, w0) :: bumpEdge rest k w

/-- Modelled from the spec: `Facility.add_transp_record` fails with
`SelfEdgesNotSupported` when the two labels are equal, with `UnknownLabel`
when either endpoint is not addressable, and otherwise accumulates the weight
into the ordered-pair edge map. -/
def add_transp_record (f : Facility) (n1 n2 : String) (w : Int) :
    Except PyError Facility :=
  if n1 == n2 then .error .selfEdgesNotSupported
  else if !(f.hasNode n1) || !(f.hasNode n2) then .error .unknownLabel
  else .ok { f with edges := bumpEdge f.edges (n1, n2) w }

/-- One entry of the layout source's `departments` list. -/
structure DepSrc where
  label : String
  points : List (Int × Int)
deriving DecidableEq, Repr

/-- The layout JSON document; `departments = none` models a document missing
the `"departments"` key (accessing it raises `KeyError`). -/
structure LayoutSrc where
  departments : Option (List DepSrc)
deriving DecidableEq, Repr

/-- `FacilityHandler.populate_facility` (lines 62-77): read the layout
source and `add_department` each entry; a missing `"departments"` key or a
duplicate label propagates. -/
def populate_facility (f : Facility) (src : LayoutSrc) : Except PyError Facility :=
  match src.departments with
  | none => .error .keyError
  | some deps =>
    deps.foldlM
      (fun fc d => add_department fc ⟨d.label, d.points.map (fun p => ⟨p.1, p.2⟩)⟩) f

/-- One normalized transportation record as yielded by the parser:
`rec[0]` source label, `rec[1]` destination label, `rec[2]` raw timestamp
string (with its 4-character suffix), `rec[3]` weight string. -/
structure TranspRec where
  src : String
  dst : String
  ts : String
  weight : String
deriving DecidableEq, Repr

/-- `rec[2][:-4]`: the timestamp with its trailing four characters removed. -/
def stripTs (r : TranspRec) : String := String.dropRight r.ts 4

/-- The mutable loop state of `insert_all_transp_records`: the facility plus
`self_edges_weight`, `date_from`, `date_to`. -/
structure LoopState where
  fac : Facility
  sew : Int
  dfrom : DateTime
  dto : DateTime
deriving DecidableEq, Repr

/-- Lines 104-111: when no date boundaries were supplied, parse the stripped
timestamp twice (`d_f_cand`, `d_t_cand`) and apply the strict running
min/max updates; a parse failure propagates as `ValueError`. -/
def updDates (dbs : Option (String × String)) (st : LoopState) (r : TranspRec) :
    Except PyError LoopState :=
  match dbs with
  | some _ => .ok st
  | none =>
    match strptime (stripTs r), strptime (stripTs r) with
    | some dfc, some dtc =>
      .ok { st with dfrom := minUpd st.dfrom dfc, dto := maxUpd st.dto dtc }
    | _, _ => .error .valueError

/-- Line 114: `str(rec[0]) in error_dep_list or str(rec[1]) in error_dep_list`. -/
def inErrorList (errs : List String) (r : TranspRec) : Bool :=
  errs.contains r.src || errs.contains r.dst

/-- Lines 116-117: with boundaries supplied, the chained comparison
`strptime(b0) <= strptime(rec[2][:-4]) <= strptime(b1)`; evaluation order and
short-circuiting follow Python, each parse failure propagating. Without
boundaries the check is skipped (`true`). -/
def dateWindowCheck (dbs : Option (String × String)) (r : TranspRec) :
    Except PyError Bool :=
  match dbs with
  | none => .ok true
  | some (a, b) =>
    match strptime a with
    | none => .error .valueError
    | some da =>
      match strptime (stripTs r) with
      | none => .error .valueError
      | some d =>
        if dtLe da d then
          match strptime b with
          | none => .error .valueError
          | some db => .ok (dtLe d db)
        else .ok false

/-- Lines 119-122: attempt
`add_transp_record(rec[0]+'.centroid', rec[1]+'.centroid', int(rec[3]))`;
`SelfEdgesNotSupported` is caught and the weight accumulated into
`self_edges_weight`; any other exception propagates. -/
def tryInsert (st : LoopState) (r : TranspRec) : Except PyError LoopState :=
  match parseInt r.weight with
  | none => .error .valueError
  | some w =>
    match add_transp_record st.fac (r.src ++ ".centroid") (r.dst ++ ".centroid") w with
    | .error .selfEdgesNotSupported => .ok { st with sew := st.sew + w }
    | .error e => .error e
    | .ok f2 => .ok { st with fac := f2 }

/-- Lines 113-122: the filter-and-insert part of one loop iteration, after
the date tracking. -/
def filterAndInsert (errs : List String) (dbs : Option (String × String))
    (st : LoopState) (r : TranspRec) : Except PyError LoopState :=
  if inErrorList errs r then .ok st
  else
    match dateWindowCheck dbs r with
    | .error e => .error e
    | .ok false => .ok st
    | .ok true => tryInsert st r

/-- One full iteration of the record loop (lines 101-122): date tracking
first, then the filters and the insertion attempt. -/
def processRecord (errs : List String) (dbs : Option (String × String))
    (st : LoopState) (r : TranspRec) : Except PyError LoopState :=
  match updDates dbs st r with
  | .error e => .error e
  | .ok st1 => filterAndInsert errs dbs st1 r

/-- The `for key in res` loop of `insert_all_transp_records`, records taken
in the parser's iteration order. -/
def insertLoop (errs : List String) (dbs : Option (String × String)) :
    LoopState → List TranspRec → Except PyError LoopState
  | st, [] => .ok st
  | st, r :: rs =>
    match processRecord errs dbs st r with
    | .error e => .error e
    | .ok st1 => insertLoop errs dbs st1 rs

/-- Line 124: the value returned by `insert_all_transp_records`, the list
`[self_edges_weight, date_from.strftime(fmt), date_to.strftime(fmt)]`. -/
def finalizeRes (st : LoopState) : Int × String × String :=
  (st.sew, strftime st.dfrom, strftime st.dto)

/-- `FacilityHandler.insert_all_transp_records` (lines 79-124), parametrized
by the parser's output list. Returns the updated facility (the mutated
`self.facility`) together with the Python return value `finalizeRes`.
Initial `date_from`/`date_to` are the parsed boundaries when supplied, else
the sentinels `9999-01-01 00:00:00` / `1002-01-01 00:00:00` (lines 95-98). -/
def insert_all_transp_records (errs : List String)
    (dbs : Option (String × String)) (f : Facility) (recs : List TranspRec) :
    Except PyError (Facility × Int × String × String) :=
  match (match dbs with | some p => strptime p.1 | none => strptime "9999-01-01 00:00:00"),
        (match dbs with | some p => strptime p.2 | none => strptime "1002-01-01 00:00:00") with
  | some dfrom, some dto =>
    (insertLoop errs dbs ⟨f, 0, dfrom, dto⟩ recs).map
      (fun st => (st.fac, finalizeRes st))
  | _, _ => .error .valueError

/-- Single-parse variant of `updDates`, following the spec's words: parse the
record's timestamp once and use the single value for both the min and the max
comparison. -/
def updDatesSingle (dbs : Option (String × String)) (st : LoopState)
    (r : TranspRec) : Except PyError LoopState :=
  match dbs with
  | some _ => .ok st
  | none =>
    match strptime (stripTs r) with
    | some d => .ok { st with dfrom := minUpd st.dfrom d, dto := maxUpd st.dto d }
    | none => .error .valueError

/-- One loop iteration built on the single-parse date tracking. -/
def processRecordSingle (errs : List String) (dbs : Option (String × String))
    (st : LoopState) (r : TranspRec) : Except PyError LoopState :=
  match updDatesSingle dbs st r with
  | .error e => .error e
  | .ok st1 => filterAndInsert errs dbs st1 r

/-- The record loop built on the single-parse date tracking. -/
def insertLoopSingle (errs : List String) (dbs : Option (String × String)) :
    LoopState → List TranspRec → Except PyError LoopState
  | st, [] => .ok st
  | st, r :: rs =>
    match processRecordSingle errs dbs st r with
    | .error e => .error e
    | .ok st1 => insertLoopSingle errs dbs st1 rs

/-- `insert_all_transp_records` built on the single-parse date tracking. -/
def insert_all_single (errs : List String) (dbs : Option (String × String))
    (f : Facility) (recs : List TranspRec) :
    Except PyError (Facility × Int × String × String) :=
  match (match dbs with | some p => strptime p.1 | none => strptime "9999-01-01 00:00:00"),
        (match dbs with | some p => strptime p.2 | none => strptime "1002-01-01 00:00:00") with
  | some dfrom, some dto =>
    (insertLoopSingle errs dbs ⟨f, 0, dfrom, dto⟩ recs).map
      (fun st => (st.fac, finalizeRes st))
  | _, _ => .error .valueError

/-- The configuration keys the handler reads. -/
structure Conf where
  facility_boundaries : Point2D × Point2D
  error_dep_list : List String
deriving DecidableEq, Repr

/-- The build environment: what the file system and the parser would supply.
`dump_exists`/`stored` model the artifact at `facility_dump_path`, `layout`
the document at `facility_source_path`, `records` the parser output for the
two CSV paths, and `persist_ok` whether the pickle write succeeds. -/
structure BuildEnv where
  dump_exists : Bool
  stored : Facility
  layout : LayoutSrc
  records : List TranspRec
  persist_ok : Bool
deriving DecidableEq, Repr

/-- The artifact on disk before the handler runs. -/
def diskBefore (env : BuildEnv) : Option Facility :=
  if env.dump_exists then some env.stored else none

/-- `FacilityHandler.dump_facility` (lines 126-141): pickle `self.facility`
to the path. The bare `except` absorbs every failure, so the function is
total: it returns the success flag, the (untouched) in-memory facility and
the resulting disk state — overwritten on success, unchanged on failure. -/
def dump_facility (persist_ok : Bool) (fac : Facility) (disk : Option Facility) :
    Bool × Facility × Option Facility :=
  if persist_ok then (true, fac, some fac) else (false, fac, disk)

/-- The object pickled by `dump_facility` (line 138): `self.facility` only;
the handler attributes `self_edges_weight`, `date_from`, `date_to` are not
part of the payload. -/
def dumped_payload (fac : Facility) (_meta : Int × String × String) : Facility :=
  fac

/-- The rebuild arm of `FacilityHandler.__init__` (lines 51-57): construct an
empty facility from the configured boundaries, populate it from the layout,
then run `insert_all_transp_records`. -/
def rebuildPipeline (conf : Conf) (env : BuildEnv) (dbs : Option (String × String)) :
    Except PyError (Facility × Int × String × String) :=
  match populate_facility
      ⟨conf.facility_boundaries.1, conf.facility_boundaries.2, [], []⟩ env.layout with
  | .error e => .error e
  | .ok f1 => insert_all_transp_records conf.error_dep_list dbs f1 env.records

/-- The observable outcome of `FacilityHandler.__init__`: the handler state
(facility plus the metadata triple when the rebuild arm set it), the artifact
on disk afterwards, and whether any source file was read (layout opened /
parser constructed). -/
structure InitOutcome where
  handler : Except PyError (Facility × Option (Int × String × String))
  disk : Option Facility
  read_sources : Bool
deriving Repr

/-- `FacilityHandler.__init__` (lines 23-60): a pre-supplied facility is
dumped as-is; otherwise, with no boundaries, no forced rebuild and an
existing artifact, the facility is restored from disk (metadata attributes
never assigned); otherwise the rebuild pipeline runs and, on success only,
`dump_facility` is called. -/
def FacilityHandler_init (conf : Conf) (env : BuildEnv)
    (facility_instance : Option Facility) (force_rebuild : Bool)
    (dbs : Option (String × String)) : InitOutcome :=
  match facility_instance with
  | some fac =>
    { handler := .ok (fac, none),
      disk := (dump_facility env.persist_ok fac (diskBefore env)).2.2,
      read_sources := false }
  | none =>
    if dbs.isNone && !force_rebuild && env.dump_exists then
      { handler := .ok (env.stored, none),
        disk := diskBefore env,
        read_sources := false }
    else
      match rebuildPipeline conf env dbs with
      | .error e =>
        { handler := .error e, disk := diskBefore env, read_sources := true }
      | .ok (f1, res) =>
        { handler := .ok (f1, some res),
          disk := (dump_facility env.persist_ok f1 (diskBefore env)).2.2,
          read_sources := true }

/-! ### Helper lemmas -/

/-- Parse every record's stripped timestamp, in order. -/
def parseAllTs : List TranspRec → Option (List DateTime)
  | [] => some []
  | r :: rs => do
    let d ← strptime (stripTs r)
    let ds ← parseAllTs rs
    some (d :: ds)

theorem updDates_none_ok (st : LoopState) (r : TranspRec) (d : DateTime)
    (h : strptime (stripTs r) = some d) :
    updDates none st r = .ok ⟨st.fac, st.sew, minUpd st.dfrom d, maxUpd st.dto d⟩ := by
  unfold updDates
  rw [h]

theorem tryInsert_dates (st : LoopState) (r : TranspRec) (st' : LoopState)
    (h : tryInsert st r = .ok st') :
    st'.dfrom = st.dfrom ∧ st'.dto = st.dto := by
  unfold tryInsert at h
  split at h
  · simp at h
  · split at h
    · simp at h; rw [← h]; exact ⟨rfl, rfl⟩
    · simp at h
    · simp at h; rw [← h]; exact ⟨rfl, rfl⟩

theorem filterAndInsert_dates (errs : List String) (dbs : Option (String × String))
    (st : LoopState) (r : TranspRec) (st' : LoopState)
    (h : filterAndInsert errs dbs st r = .ok st') :
    st'.dfrom = st.dfrom ∧ st'.dto = st.dto := by
  unfold filterAndInsert at h
  by_cases herr : inErrorList errs r = true
  · simp [herr] at h
    rw [← h]
    exact ⟨rfl, rfl⟩
  · simp [herr] at h
    cases hw : dateWindowCheck dbs r with
    | error e => rw [hw] at h; simp at h
    | ok b =>
      rw [hw] at h
      cases b with
      | false => simp at h; rw [← h]; exact ⟨rfl, rfl⟩
      | true => exact tryInsert_dates st r st' h

theorem updDates_fac_sew (dbs : Option (String × String)) (st : LoopState)
    (r : TranspRec) (st' : LoopState) (h : updDates dbs st r = .ok st') :
    st'.fac = st.fac ∧ st'.sew = st.sew := by
  unfold updDates at h
  cases dbs with
  | some p => simp at h; rw [← h]; exact ⟨rfl, rfl⟩
  | none =>
    cases hd : strptime (stripTs r) with
    | none => rw [hd] at h; simp at h
    | some d => rw [hd] at h; simp at h; rw [← h]; exact ⟨rfl, rfl⟩

theorem processRecord_dates_some (errs : List String) (p : String × String)
    (st : LoopState) (r : TranspRec) (st' : LoopState)
    (h : processRecord errs (some p) st r = .ok st') :
    st'.dfrom = st.dfrom ∧ st'.dto = st.dto :=
  filterAndInsert_dates errs (some p) st r st' h

theorem insertLoop_dates_some (errs : List String) (p : String × String) :
    ∀ (recs : List TranspRec) (st st' : LoopState),
      insertLoop errs (some p) st recs = .ok st' →
      st'.dfrom = st.dfrom ∧ st'.dto = st.dto
  | [], st, st', h => by
    unfold insertLoop at h
    simp at h
    rw [← h]
    exact ⟨rfl, rfl⟩
  | r :: rs, st, st', h => by
    unfold insertLoop at h
    cases hp : processRecord errs (some p) st r with
    | error e => rw [hp] at h; simp at h
    | ok st1 =>
      rw [hp] at h
      have h1 := processRecord_dates_some errs p st r st1 hp
      have h2 := insertLoop_dates_some errs p rs st1 st' h
      exact ⟨h2.1.trans h1.1, h2.2.trans h1.2⟩

theorem processRecord_dates_none (errs : List String) (st : LoopState)
    (r : TranspRec) (d : DateTime) (st' : LoopState)
    (hd : strptime (stripTs r) = some d)
    (h : processRecord errs none st r = .ok st') :
    st'.dfrom = minUpd st.dfrom d ∧ st'.dto = maxUpd st.dto d := by
  unfold processRecord at h
  rw [updDates_none_ok st r d hd] at h
  exact filterAndInsert_dates errs none ⟨st.fac, st.sew, minUpd st.dfrom d, maxUpd st.dto d⟩ r st' h

theorem insertLoop_dates_none (errs : List String) :
    ∀ (recs : List TranspRec) (ds : List DateTime) (st st' : LoopState),
      parseAllTs recs = some ds →
      insertLoop errs none st recs = .ok st' →
      st'.dfrom = List.foldl minUpd st.dfrom ds ∧
        st'.dto = List.foldl maxUpd st.dto ds
  | [], ds, st, st', hts, h => by
    unfold parseAllTs at hts
    simp at hts
    subst hts
    unfold insertLoop at h
    simp at h
    rw [← h]
    exact ⟨rfl, rfl⟩
  | r :: rs, ds, st, st', hts, h => by
    unfold parseAllTs at hts
    cases hd : strptime (stripTs r) with
    | none => rw [hd] at hts; simp at hts
    | some d =>
      rw [hd] at hts
      cases hds : parseAllTs rs with
      | none => rw [hds] at hts; simp at hts
      | some ds' =>
        rw [hds] at hts
        simp at hts
        subst hts
        unfold insertLoop at h
        cases hp : processRecord errs none st r with
        | error e => rw [hp] at h; simp at h
        | ok st1 =>
          rw [hp] at h
          have hfs := processRecord_dates_none errs st r d st1 hd hp
          have ih := insertLoop_dates_none errs rs ds' st1 st' hds h
          simp only [List.foldl]
          rw [← hfs.1, ← hfs.2]
          exact ih

theorem insert_all_none_unfold (errs : List String) (f : Facility)
    (recs : List TranspRec) :
    insert_all_transp_records errs none f recs =
      (insertLoop errs none ⟨f, 0, ⟨9999, 1, 1, 0, 0, 0⟩, ⟨1002, 1, 1, 0, 0, 0⟩⟩ recs).map
        (fun st => (st.fac, finalizeRes st)) := rfl

theorem insert_all_some_unfold (errs : List String) (a b : String)
    (da db : DateTime) (f : Facility) (recs : List TranspRec)
    (ha : strptime a = some da) (hb : strptime b = some db) :
    insert_all_transp_records errs (some (a, b)) f recs =
      (insertLoop errs (some (a, b)) ⟨f, 0, da, db⟩ recs).map
        (fun st => (st.fac, finalizeRes st)) := by
  simp only [insert_all_transp_records]
  rw [ha, hb]

theorem updDates_eq_single (dbs : Option (String × String)) (st : LoopState)
    (r : TranspRec) : updDates dbs st r = updDatesSingle dbs st r := by
  unfold updDates updDatesSingle
  cases dbs with
  | some p => rfl
  | none => cases hd : strptime (stripTs r) <;> simp [hd]

theorem processRecord_eq_single (errs : List String)
    (dbs : Option (String × String)) (st : LoopState) (r : TranspRec) :
    processRecord errs dbs st r = processRecordSingle errs dbs st r := by
  unfold processRecord processRecordSingle
  rw [updDates_eq_single]

theorem insertLoop_eq_single (errs : List String) (dbs : Option (String × String)) :
    ∀ (recs : List TranspRec) (st : LoopState),
      insertLoop errs dbs st recs = insertLoopSingle errs dbs st recs
  | [], _ => rfl
  | r :: rs, st => by
    unfold insertLoop insertLoopSingle
    rw [processRecord_eq_single]
    cases processRecordSingle errs dbs st r with
    | error e => rfl
    | ok st1 => exact insertLoop_eq_single errs dbs rs st1

/-! ### Claim theorems -/

/-- C10: with no explicit date boundaries and zero parsed records,
`insert_all_transp_records` returns self-edge total 0 and the fixed sentinel
strings `"9999-01-01 00:00:00"` as `observedDateFrom` and
`"1002-01-01 00:00:00"` as `observedDateTo` (an inverted range), not an error
or empty marker. -/
theorem c10_empty_sentinels (errs : List String) (f : Facility) :
    insert_all_transp_records errs none f [] =
      .ok (f, 0, "9999-01-01 00:00:00", "1002-01-01 00:00:00") := by
  rw [insert_all_none_unfold]
  show Except.ok (f, 0, strftime ⟨9999, 1, 1, 0, 0, 0⟩, strftime ⟨1002, 1, 1, 0, 0, 0⟩) = _
  rw [show strftime ⟨9999, 1, 1, 0, 0, 0⟩ = "9999-01-01 00:00:00" from rfl,
    show strftime ⟨1002, 1, 1, 0, 0, 0⟩ = "1002-01-01 00:00:00" from rfl]

/-- C9: the double-parse date tracking of the source (parsing the same
stripped timestamp string once for the min comparison and once for the max
comparison) is observationally equal, on every input, to the single-parse
variant that parses each record's timestamp once. -/
theorem c9_double_parse_equiv (errs : List String)
    (dbs : Option (String × String)) (f : Facility) (recs : List TranspRec) :
    insert_all_transp_records errs dbs f recs = insert_all_single errs dbs f recs := by
  unfold insert_all_transp_records insert_all_single
  split
  · rw [insertLoop_eq_single]
  · rfl

/-- C8: `dump_facility` is total (the bare `except` absorbs every failure):
it returns `True` and overwrites the artifact when persistence succeeds, and
returns `False`, leaving both the in-memory facility and the on-disk artifact
unchanged, when persistence fails. -/
theorem c8_dump_total (fac : Facility) (disk : Option Facility) :
    dump_facility true fac disk = (true, fac, some fac) ∧
    dump_facility false fac disk = (false, fac, disk) := ⟨rfl, rfl⟩

theorem insertLoop_cons_ok (errs : List String) (dbs : Option (String × String))
    (st st1 : LoopState) (r : TranspRec) (rs : List TranspRec)
    (hp : processRecord errs dbs st r = .ok st1) :
    insertLoop errs dbs st (r :: rs) = insertLoop errs dbs st1 rs := by
  conv_lhs => rw [insertLoop]
  rw [hp]

theorem filterAndInsert_errorList (errs : List String)
    (dbs : Option (String × String)) (st : LoopState) (r : TranspRec)
    (herr : inErrorList errs r = true) :
    filterAndInsert errs dbs st r = .ok st := by
  simp [filterAndInsert, herr]

theorem filterAndInsert_pass (errs : List String) (dbs : Option (String × String))
    (st : LoopState) (r : TranspRec)
    (herr : inErrorList errs r = false)
    (hwc : dateWindowCheck dbs r = .ok true) :
    filterAndInsert errs dbs st r = tryInsert st r := by
  simp [filterAndInsert, herr, hwc]

theorem filterAndInsert_skip (errs : List String) (dbs : Option (String × String))
    (st : LoopState) (r : TranspRec)
    (herr : inErrorList errs r = false)
    (hwc : dateWindowCheck dbs r = .ok false) :
    filterAndInsert errs dbs st r = .ok st := by
  simp [filterAndInsert, herr, hwc]

theorem dateWindowCheck_in (a b : String) (da db d : DateTime) (r : TranspRec)
    (ha : strptime a = some da) (hb : strptime b = some db)
    (hts : strptime (stripTs r) = some d)
    (h1 : dtLe da d = true) (h2 : dtLe d db = true) :
    dateWindowCheck (some (a, b)) r = .ok true := by
  simp only [dateWindowCheck, ha, hts, hb, h1, h2, if_true]

theorem dateWindowCheck_out (a b : String) (da db d : DateTime) (r : TranspRec)
    (ha : strptime a = some da) (hb : strptime b = some db)
    (hts : strptime (stripTs r) = some d)
    (hout : (dtLe da d && dtLe d db) = false) :
    dateWindowCheck (some (a, b)) r = .ok false := by
  simp only [dateWindowCheck, ha, hts, hb]
  cases h1 : dtLe da d with
  | false => simp
  | true =>
    rw [h1] at hout
    simp only [Bool.true_and] at hout
    simp [hout]

theorem tryInsert_selfEdge (st : LoopState) (r : TranspRec) (w : Int)
    (hw : parseInt r.weight = some w)
    (hself : add_transp_record st.fac (r.src ++ ".centroid") (r.dst ++ ".centroid") w =
      .error .selfEdgesNotSupported) :
    tryInsert st r = .ok { st with sew := st.sew + w } := by
  unfold tryInsert
  simp only [hw]
  rw [hself]

/-- C1 (counterexample): a record whose source label is in the error list is
claimed to leave the observed date-range tracking unchanged; but with no
boundaries supplied, processing the single error-listed record changes the
returned date range from the sentinels to the record's own timestamp. -/
theorem c1_counterexample :
    insert_all_transp_records ["E"] none ⟨⟨0, 0⟩, ⟨10, 10⟩, [], []⟩
        [⟨"E", "B", "2015-05-25 18:00:00ABCD", "5"⟩] =
      .ok (⟨⟨0, 0⟩, ⟨10, 10⟩, [], []⟩, 0, "2015-05-25 18:00:00", "2015-05-25 18:00:00") ∧
    insert_all_transp_records ["E"] none ⟨⟨0, 0⟩, ⟨10, 10⟩, [], []⟩ [] =
      .ok (⟨⟨0, 0⟩, ⟨10, 10⟩, [], []⟩, 0, "9999-01-01 00:00:00", "1002-01-01 00:00:00") ∧
    ("2015-05-25 18:00:00" : String) ≠ "9999-01-01 00:00:00" :=
  ⟨rfl, rfl, by decide⟩

/-- C1 (amended): a record whose source or destination label is in the error
list leaves the facility graph and the self-edge weight total unchanged
(no `add_transp_record` call is reached) and the loop continues with the
remaining records; however, when no explicit date boundaries are supplied it
still contributes to the observed date-range tracking, whose min/max update
precedes the error-list check. -/
theorem c1_error_list_frame (errs : List String) (dbs : Option (String × String))
    (st : LoopState) (r : TranspRec) (rs : List TranspRec) (d : DateTime)
    (herr : inErrorList errs r = true)
    (hts : dbs = none → strptime (stripTs r) = some d) :
    ∃ df dt, processRecord errs dbs st r = .ok ⟨st.fac, st.sew, df, dt⟩ ∧
      insertLoop errs dbs st (r :: rs) = insertLoop errs dbs ⟨st.fac, st.sew, df, dt⟩ rs ∧
      (dbs = none → df = minUpd st.dfrom d ∧ dt = maxUpd st.dto d) := by
  cases dbs with
  | some p =>
    have hp : processRecord errs (some p) st r = .ok ⟨st.fac, st.sew, st.dfrom, st.dto⟩ :=
      filterAndInsert_errorList errs (some p) st r herr
    exact ⟨st.dfrom, st.dto, hp, insertLoop_cons_ok errs (some p) st _ r rs hp,
      fun h => by cases h⟩
  | none =>
    have hp : processRecord errs none st r =
        .ok ⟨st.fac, st.sew, minUpd st.dfrom d, maxUpd st.dto d⟩ := by
      unfold processRecord
      rw [updDates_none_ok st r d (hts rfl)]
      exact filterAndInsert_errorList errs none
        ⟨st.fac, st.sew, minUpd st.dfrom d, maxUpd st.dto d⟩ r herr
    exact ⟨minUpd st.dfrom d, maxUpd st.dto d, hp,
      insertLoop_cons_ok errs none st _ r rs hp, fun _ => ⟨rfl, rfl⟩⟩

/-- C1 witness: the amended frame property applied to a concrete error-listed
record with no date boundaries. -/
theorem c1_witness :
    ∃ df dt, processRecord ["E"] none
        ⟨⟨⟨0, 0⟩, ⟨10, 10⟩, [], []⟩, 0, ⟨9999, 1, 1, 0, 0, 0⟩, ⟨1002, 1, 1, 0, 0, 0⟩⟩
        ⟨"E", "B", "2015-05-25 18:00:00ABCD", "5"⟩ =
        .ok ⟨⟨⟨0, 0⟩, ⟨10, 10⟩, [], []⟩, 0, df, dt⟩ ∧
      insertLoop ["E"] none
          ⟨⟨⟨0, 0⟩, ⟨10, 10⟩, [], []⟩, 0, ⟨9999, 1, 1, 0, 0, 0⟩, ⟨1002, 1, 1, 0, 0, 0⟩⟩
          [⟨"E", "B", "2015-05-25 18:00:00ABCD", "5"⟩] =
        insertLoop ["E"] none ⟨⟨⟨0, 0⟩, ⟨10, 10⟩, [], []⟩, 0, df, dt⟩ [] ∧
      (none = (none : Option (String × String)) →
        df = minUpd ⟨9999, 1, 1, 0, 0, 0⟩ ⟨2015, 5, 25, 18, 0, 0⟩ ∧
        dt = maxUpd ⟨1002, 1, 1, 0, 0, 0⟩ ⟨2015, 5, 25, 18, 0, 0⟩) :=
  c1_error_list_frame ["E"] none _ _ [] ⟨2015, 5, 25, 18, 0, 0⟩ rfl (fun _ => rfl)

/-- C2 (counterexample): with one parsed record timestamped
`9999-01-01 00:00:01` (later than the `9999-01-01 00:00:00` sentinel), the
minimum over all parsed records formats to `"9999-01-01 00:00:01"`, yet the
returned `observedDateFrom` is the sentinel `"9999-01-01 00:00:00"` — so the
returned value is not the minimum over all parsed records. -/
theorem c2_counterexample :
    insert_all_transp_records ["A", "B"] none ⟨⟨0, 0⟩, ⟨10, 10⟩, [], []⟩
        [⟨"A", "B", "9999-01-01 00:00:01ABCD", "1"⟩] =
      .ok (⟨⟨0, 0⟩, ⟨10, 10⟩, [], []⟩, 0, "9999-01-01 00:00:00", "9999-01-01 00:00:01") ∧
    strptime (stripTs ⟨"A", "B", "9999-01-01 00:00:01ABCD", "1"⟩) =
      some ⟨9999, 1, 1, 0, 0, 1⟩ ∧
    strftime ⟨9999, 1, 1, 0, 0, 1⟩ = "9999-01-01 00:00:01" ∧
    ("9999-01-01 00:00:00" : String) ≠ "9999-01-01 00:00:01" :=
  ⟨rfl, rfl, rfl, by decide⟩

/-- C2 (amended): with no boundaries supplied and every record's stripped
timestamp parseable, a successful `insert_all_transp_records` run returns
`observedDateFrom` equal to the strict-fold minimum of the parsed timestamps
clamped by the `9999-01-01 00:00:00` sentinel and `observedDateTo` equal to
the strict-fold maximum clamped by the `1002-01-01 00:00:00` sentinel —
i.e. the record min/max whenever the timestamps lie inside the sentinel
range, computed over ALL parsed records, before error-list and self-edge
filtering, in visit order. -/
theorem c2_observed_min_max (errs : List String) (f : Facility)
    (recs : List TranspRec) (ds : List DateTime)
    (res : Facility × Int × String × String)
    (hts : parseAllTs recs = some ds)
    (hok : insert_all_transp_records errs none f recs = .ok res) :
    res.2.2.1 = strftime (List.foldl minUpd ⟨9999, 1, 1, 0, 0, 0⟩ ds) ∧
    res.2.2.2 = strftime (List.foldl maxUpd ⟨1002, 1, 1, 0, 0, 0⟩ ds) := by
  rw [insert_all_none_unfold] at hok
  cases hloop : insertLoop errs none
      ⟨f, 0, ⟨9999, 1, 1, 0, 0, 0⟩, ⟨1002, 1, 1, 0, 0, 0⟩⟩ recs with
  | error e => rw [hloop] at hok; simp [Except.map] at hok
  | ok st1 =>
    rw [hloop] at hok
    simp only [Except.map, Except.ok.injEq] at hok
    have hd := insertLoop_dates_none errs recs ds _ st1 hts hloop
    rw [← hok]
    exact ⟨congrArg strftime hd.1, congrArg strftime hd.2⟩

/-- C2 witness: the amended min/max property at a concrete one-record run. -/
theorem c2_witness :
    ((⟨⟨0, 0⟩, ⟨10, 10⟩, [], []⟩, 0, "2015-05-25 18:00:00", "2015-05-25 18:00:00") :
        Facility × Int × String × String).2.2.1 =
      strftime (List.foldl minUpd ⟨9999, 1, 1, 0, 0, 0⟩ [⟨2015, 5, 25, 18, 0, 0⟩]) ∧
    ((⟨⟨0, 0⟩, ⟨10, 10⟩, [], []⟩, 0, "2015-05-25 18:00:00", "2015-05-25 18:00:00") :
        Facility × Int × String × String).2.2.2 =
      strftime (List.foldl maxUpd ⟨1002, 1, 1, 0, 0, 0⟩ [⟨2015, 5, 25, 18, 0, 0⟩]) :=
  c2_observed_min_max ["A"] ⟨⟨0, 0⟩, ⟨10, 10⟩, [], []⟩
    [⟨"A", "B", "2015-05-25 18:00:00ABCD", "5"⟩] [⟨2015, 5, 25, 18, 0, 0⟩] _ rfl rfl

/-- C3: a record whose insertion raises `SelfEdgesNotSupported` (and which
passed the error-list and date-window filters) does not propagate the error:
the loop state keeps the facility unchanged (no edge created), adds exactly
the parsed weight `int(rec[3])` to the running self-edge total, continues
with the remaining records, and the total is the first element of the
returned result list (`finalizeRes`). -/
theorem c3_self_edge_recovery (errs : List String) (dbs : Option (String × String))
    (st : LoopState) (r : TranspRec) (rs : List TranspRec) (d : DateTime) (w : Int)
    (hts : strptime (stripTs r) = some d)
    (hw : parseInt r.weight = some w)
    (hself : add_transp_record st.fac (r.src ++ ".centroid") (r.dst ++ ".centroid") w =
      .error .selfEdgesNotSupported)
    (herr : inErrorList errs r = false)
    (hwin : ∀ a b, dbs = some (a, b) → ∃ da db, strptime a = some da ∧
      strptime b = some db ∧ dtLe da d = true ∧ dtLe d db = true) :
    ∃ df dt, processRecord errs dbs st r = .ok ⟨st.fac, st.sew + w, df, dt⟩ ∧
      insertLoop errs dbs st (r :: rs) =
        insertLoop errs dbs ⟨st.fac, st.sew + w, df, dt⟩ rs ∧
      ∀ stF : LoopState, (finalizeRes stF).1 = stF.sew := by
  cases dbs with
  | none =>
    have hp : processRecord errs none st r =
        .ok ⟨st.fac, st.sew + w, minUpd st.dfrom d, maxUpd st.dto d⟩ := by
      unfold processRecord
      rw [updDates_none_ok st r d hts]
      have h1 := filterAndInsert_pass errs none
        ⟨st.fac, st.sew, minUpd st.dfrom d, maxUpd st.dto d⟩ r herr rfl
      have h2 := tryInsert_selfEdge
        ⟨st.fac, st.sew, minUpd st.dfrom d, maxUpd st.dto d⟩ r w hw hself
      exact h1.trans h2
    exact ⟨minUpd st.dfrom d, maxUpd st.dto d, hp,
      insertLoop_cons_ok errs none st _ r rs hp, fun _ => rfl⟩
  | some p =>
    obtain ⟨da, db, ha, hb, h1, h2⟩ := hwin p.1 p.2 rfl
    have hwc : dateWindowCheck (some p) r = .ok true :=
      dateWindowCheck_in p.1 p.2 da db d r ha hb hts h1 h2
    have hp : processRecord errs (some p) st r = .ok ⟨st.fac, st.sew + w, st.dfrom, st.dto⟩ := by
      have hhead := filterAndInsert_pass errs (some p) st r herr hwc
      have h3 := tryInsert_selfEdge st r w hw hself
      exact hhead.trans h3
    exact ⟨st.dfrom, st.dto, hp, insertLoop_cons_ok errs (some p) st _ r rs hp,
      fun _ => rfl⟩

/-- C3 witness: the self-edge recovery applied to a concrete `A → A` record
with weight 10, no boundaries, starting from the sentinel state. -/
theorem c3_witness :
    ∃ df dt, processRecord [] none
        ⟨⟨⟨0, 0⟩, ⟨10, 10⟩, [], []⟩, 0, ⟨9999, 1, 1, 0, 0, 0⟩, ⟨1002, 1, 1, 0, 0, 0⟩⟩
        ⟨"A", "A", "2015-05-27 18:00:00ABCD", "10"⟩ =
        .ok ⟨⟨⟨0, 0⟩, ⟨10, 10⟩, [], []⟩, 0 + 10, df, dt⟩ ∧
      insertLoop [] none
          ⟨⟨⟨0, 0⟩, ⟨10, 10⟩, [], []⟩, 0, ⟨9999, 1, 1, 0, 0, 0⟩, ⟨1002, 1, 1, 0, 0, 0⟩⟩
          [⟨"A", "A", "2015-05-27 18:00:00ABCD", "10"⟩] =
        insertLoop [] none ⟨⟨⟨0, 0⟩, ⟨10, 10⟩, [], []⟩, 0 + 10, df, dt⟩ [] ∧
      ∀ stF : LoopState, (finalizeRes stF).1 = stF.sew :=
  c3_self_edge_recovery [] none _ _ [] ⟨2015, 5, 27, 18, 0, 0⟩ 10 rfl rfl rfl rfl
    (fun a b h => by cases h)

/-- C4: with explicit boundaries `(a, b)` supplied (both parseable), a record
not excluded by the error list reaches the insertion attempt iff its parsed
stripped timestamp satisfies `a <= ts <= b` inclusive; otherwise it is
skipped with no effect on the loop state; and a successful run returns the
supplied boundaries echoed back, re-formatted with the fixed format. -/
theorem c4_boundary_semantics (errs : List String) (a b : String)
    (da db : DateTime) (ha : strptime a = some da) (hb : strptime b = some db) :
    (∀ (st : LoopState) (r : TranspRec) (d : DateTime),
      inErrorList errs r = false → strptime (stripTs r) = some d →
      (((dtLe da d && dtLe d db) = true →
          processRecord errs (some (a, b)) st r = tryInsert st r) ∧
       ((dtLe da d && dtLe d db) = false →
          processRecord errs (some (a, b)) st r = .ok st))) ∧
    (∀ (f : Facility) (recs : List TranspRec)
        (res : Facility × Int × String × String),
      insert_all_transp_records errs (some (a, b)) f recs = .ok res →
      res.2.2.1 = strftime da ∧ res.2.2.2 = strftime db) := by
  constructor
  · intro st r d herr hts
    constructor
    · intro hin
      obtain ⟨h1, h2⟩ := Bool.and_eq_true_iff.mp hin
      exact filterAndInsert_pass errs (some (a, b)) st r herr
        (dateWindowCheck_in a b da db d r ha hb hts h1 h2)
    · intro hout
      exact filterAndInsert_skip errs (some (a, b)) st r herr
        (dateWindowCheck_out a b da db d r ha hb hts hout)
  · intro f recs res hok
    rw [insert_all_some_unfold errs a b da db f recs ha hb] at hok
    cases hloop : insertLoop errs (some (a, b)) ⟨f, 0, da, db⟩ recs with
    | error e => rw [hloop] at hok; simp [Except.map] at hok
    | ok st1 =>
      rw [hloop] at hok
      simp only [Except.map, Except.ok.injEq] at hok
      have hd := insertLoop_dates_some errs (a, b) recs _ st1 hloop
      rw [← hok]
      exact ⟨congrArg strftime hd.1, congrArg strftime hd.2⟩

set_option maxHeartbeats 1000000 in
/-- C4 witness: an in-window record proceeds to the insertion attempt for
concrete boundaries 2015-01-01 to 2016-01-01. -/
theorem c4_witness :
    processRecord [] (some ("2015-01-01 00:00:00", "2016-01-01 00:00:00"))
      ⟨⟨⟨0, 0⟩, ⟨10, 10⟩, [], []⟩, 0, ⟨2015, 1, 1, 0, 0, 0⟩, ⟨2016, 1, 1, 0, 0, 0⟩⟩
      ⟨"A", "B", "2015-05-25 18:00:00ABCD", "5"⟩ =
    tryInsert ⟨⟨⟨0, 0⟩, ⟨10, 10⟩, [], []⟩, 0, ⟨2015, 1, 1, 0, 0, 0⟩, ⟨2016, 1, 1, 0, 0, 0⟩⟩
      ⟨"A", "B", "2015-05-25 18:00:00ABCD", "5"⟩ :=
  ((c4_boundary_semantics [] "2015-01-01 00:00:00" "2016-01-01 00:00:00"
      ⟨2015, 1, 1, 0, 0, 0⟩ ⟨2016, 1, 1, 0, 0, 0⟩ rfl rfl).1
    ⟨⟨⟨0, 0⟩, ⟨10, 10⟩, [], []⟩, 0, ⟨2015, 1, 1, 0, 0, 0⟩, ⟨2016, 1, 1, 0, 0, 0⟩⟩
    ⟨"A", "B", "2015-05-25 18:00:00ABCD", "5"⟩
    ⟨2015, 5, 25, 18, 0, 0⟩ rfl rfl).1 (by decide)

/-- C5 (counterexample): the pickled payload of `dump_facility` is
`self.facility` alone, so no restore function can recover the
`{selfEdgeWeightTotal, observedDateFrom, observedDateTo}` metadata from the
artifact: two handler states with the same facility but different
self-edge totals produce the identical artifact. -/
theorem c5_counterexample :
    ¬ ∃ recov : Facility → Int × String × String,
      ∀ (fac : Facility) (m : Int × String × String),
        recov (dumped_payload fac m) = m := by
  rintro ⟨recov, h⟩
  have h1 := h ⟨⟨0, 0⟩, ⟨1, 1⟩, [], []⟩ (0, "", "")
  have h2 := h ⟨⟨0, 0⟩, ⟨1, 1⟩, [], []⟩ (1, "", "")
  rw [dumped_payload] at h1 h2
  rw [h1] at h2
  simp at h2

/-- C5 (amended): the persisted artifact is the serialized Facility graph
only; a handler built from a pre-supplied facility persists exactly that
facility, and a later cache-restoring construction recovers the graph but
none of the derived metadata (the metadata attributes are never assigned on
the restore path). -/
theorem c5_artifact_graph_only (conf : Conf) (env : BuildEnv) (fac : Facility)
    (fr : Bool) (dbs : Option (String × String))
    (hok : env.persist_ok = true) :
    (FacilityHandler_init conf env (some fac) fr dbs).disk = some fac ∧
    ∀ (conf2 : Conf) (env2 : BuildEnv), env2.dump_exists = true →
      env2.stored = fac →
      (FacilityHandler_init conf2 env2 none false none).handler = .ok (fac, none) := by
  constructor
  · simp [FacilityHandler_init, dump_facility, hok]
  · intro conf2 env2 hex hst
    simp [FacilityHandler_init, hex, hst]

/-- C5 witness: the amended persistence property at a concrete facility and
environment. -/
theorem c5_witness :
    (FacilityHandler_init ⟨(⟨0, 0⟩, ⟨1, 1⟩), []⟩
        ⟨false, ⟨⟨0, 0⟩, ⟨1, 1⟩, [], []⟩, ⟨none⟩, [], true⟩
        (some ⟨⟨0, 0⟩, ⟨9, 9⟩, [], []⟩) false none).disk =
      some ⟨⟨0, 0⟩, ⟨9, 9⟩, [], []⟩ :=
  (c5_artifact_graph_only ⟨(⟨0, 0⟩, ⟨1, 1⟩), []⟩
    ⟨false, ⟨⟨0, 0⟩, ⟨1, 1⟩, [], []⟩, ⟨none⟩, [], true⟩
    ⟨⟨0, 0⟩, ⟨9, 9⟩, [], []⟩ false none rfl).1

/-- C6: with no pre-supplied facility, `force_rebuild = false`, no date
boundaries and an existing artifact, `FacilityHandler.__init__` restores the
facility from the artifact, reads no source (layout never opened, parser
never constructed), leaves the disk unchanged, and assigns no metadata. -/
theorem c6_cache_restore (conf : Conf) (env : BuildEnv)
    (hexists : env.dump_exists = true) :
    FacilityHandler_init conf env none false none =
      { handler := .ok (env.stored, none), disk := some env.stored,
        read_sources := false } := by
  simp [FacilityHandler_init, diskBefore, hexists]

/-- C6 witness: the cache-restore path at a concrete environment. -/
theorem c6_witness :
    FacilityHandler_init ⟨(⟨0, 0⟩, ⟨1, 1⟩), []⟩
        ⟨true, ⟨⟨0, 0⟩, ⟨7, 7⟩, [], []⟩, ⟨none⟩, [], true⟩ none false none =
      { handler := .ok (⟨⟨0, 0⟩, ⟨7, 7⟩, [], []⟩, none),
        disk := some ⟨⟨0, 0⟩, ⟨7, 7⟩, [], []⟩, read_sources := false } :=
  c6_cache_restore ⟨(⟨0, 0⟩, ⟨1, 1⟩), []⟩
    ⟨true, ⟨⟨0, 0⟩, ⟨7, 7⟩, [], []⟩, ⟨none⟩, [], true⟩ rfl

/-- C7: when the rebuild arm is taken and the build pipeline raises a fatal
error (for example `populate_facility` on a layout missing the
`"departments"` key, or a duplicate-label / unknown-label failure),
`FacilityHandler.__init__` propagates the error, `dump_facility` is never
reached, and the artifact on disk stays exactly as it was before. -/
theorem c7_fatal_error_no_artifact (conf : Conf) (env : BuildEnv) (fr : Bool)
    (dbs : Option (String × String)) (e : PyError)
    (hbranch : (dbs.isNone && !fr && env.dump_exists) = false)
    (hfail : rebuildPipeline conf env dbs = .error e) :
    FacilityHandler_init conf env none fr dbs =
      { handler := .error e, disk := diskBefore env, read_sources := true } := by
  simp [FacilityHandler_init, hbranch, hfail]

/-- C7 witness: a forced rebuild over a layout missing the `"departments"`
key fails with `KeyError` and leaves the prior artifact untouched. -/
theorem c7_witness :
    FacilityHandler_init ⟨(⟨0, 0⟩, ⟨1, 1⟩), []⟩
        ⟨true, ⟨⟨0, 0⟩, ⟨7, 7⟩, [], []⟩, ⟨none⟩, [], true⟩ none true none =
      { handler := .error .keyError,
        disk := diskBefore ⟨true, ⟨⟨0, 0⟩, ⟨7, 7⟩, [], []⟩, ⟨none⟩, [], true⟩,
        read_sources := true } :=
  c7_fatal_error_no_artifact ⟨(⟨0, 0⟩, ⟨1, 1⟩), []⟩
    ⟨true, ⟨⟨0, 0⟩, ⟨7, 7⟩, [], []⟩, ⟨none⟩, [], true⟩ true none .keyError rfl rfl
